import Mathlib

/-
A shallow embedding of the promise/future core of this repository
(include/seastar/core/future.hh) together with theorems about its
behaviour.  Line numbers in comments refer to that header.
-/

/-- Model of the contents of a std::exception_ptr as stored in a future_state
(future.hh keeps the descriptor as a single type-erased pointer).  The core
treats user exceptions as opaque, so user exceptions are just tagged numbers.
The remaining constructors model objects produced by the primitives the core
uses: brokenPromise is the broken_promise exception (future.hh:113);
nestedObj e is a std::nested_exception object whose nested pointer holds e,
as produced by the default constructor of std::nested_exception inside a
catch block that is handling e; wrapped t e is the unspecified type derived
from both t's dynamic type and std::nested_exception (capturing e) that
std::throw_with_nested produces for arguments whose type is not derived from
std::nested_exception. -/
inductive Exn : Type where
  | brokenPromise : Exn
  | user : Nat → Exn
  | nestedObj : Exn → Exn
  | wrapped : Exn → Exn → Exn
  deriving DecidableEq, Repr

/-- Model of future_state<T...> (future.hh:224-373).  The C++ discriminant is
enum class state { invalid = 0, future = 1, result = 2, exception_min = 3+ }
(future.hh:230-235), where any value at least exception_min encodes a stored
exception_ptr; constructor names follow the enum.  The payload tuple
std::tuple<T...> is modelled by the type parameter. -/
inductive future_state (α : Type) : Type where
  | invalid : future_state α
  | future : future_state α
  | result : α → future_state α
  | exception : Exn → future_state α
  deriving DecidableEq, Repr

variable {α β : Type}

/-- future_state_base::available (future.hh:278): state is result or an
exception. -/
def future_state.available : future_state α → Bool
  | .result _ => true
  | .exception _ => true
  | _ => false

/-- future_state_base::failed (future.hh:279): state encodes an exception. -/
def future_state.failed : future_state α → Bool
  | .exception _ => true
  | _ => false

/-- future_state::set (future.hh:334-338): asserts the state is future
(pending) and constructs the value in place.  The model is total; theorems
about it are only stated where the source's precondition holds. -/
def future_state.set (_s : future_state α) (v : α) : future_state α :=
  .result v

/-- future_state_base::set_exception (future.hh:283-286): asserts the state is
future (pending) and stores the exception. -/
def future_state.set_exception (_s : future_state α) (e : Exn) : future_state α :=
  .exception e

/-- future_state::get (future.hh:349-363): asserts the state is not future
(pending); rethrows a stored exception (modelled as Except.error) or returns
the value tuple.  The assert-failing states produce none. -/
def future_state.get : future_state α → Option (Except Exn α)
  | .result v => some (.ok v)
  | .exception e => some (.error e)
  | _ => none

/-- future_state::ignore (future.hh:364-368): destroys the contents and sets
the discriminant to invalid. -/
def future_state.ignore (_s : future_state α) : future_state α :=
  .invalid

/-- Moving a future_state (future.hh:261-268, 310-316): the destination
receives the contents and the moved-from object is left with st = invalid.
Returns (moved-to contents, moved-from contents).  This is also how
future::get_available_state (future.hh:798-804) consumes the future's state. -/
def future_state.moveOut (s : future_state α) : future_state α × future_state α :=
  (s, .invalid)

/-- Modelled from the spec: future_state_base::set_to_broken_promise is only
declared in future.hh (line 281); its definition lives outside this repository
snapshot.  Spec I6 and section 7: the value cell transitions to
failure(broken-promise). -/
def future_state.set_to_broken_promise (_s : future_state α) : future_state α :=
  .exception .brokenPromise

/-- make_ready_future (future.hh:1298-1302): a future in the available, value
state, represented by its future_state. -/
def make_ready_future (v : α) : future_state α :=
  .result v

/-- make_exception_future (future.hh:1304-1308): a future in the available,
failed state, represented by its future_state. -/
def make_exception_future (e : Exn) : future_state α :=
  .exception e

/-
The lifter (futurize, future.hh:589-666 and 1329-1427).  A callable that can
fail synchronously is modelled as a Lean function into Except Exn; Except.error
is a synchronously thrown exception.  A callable of several arguments is
modelled as taking the argument tuple directly, so the C++ argument-list entry
point and the argument-tuple entry point (which unpacks via seastar::apply)
coincide up to that tupling; both are still given their own definition,
mirroring the two overloads.
-/

/-- futurize<T>::apply(Func&&, std::tuple<FuncArgs...>&&) (future.hh:1329-1337):
convert(seastar::apply(func, args)) with any synchronous exception converted
into make_exception_future; convert on a plain value is make_ready_future
(future.hh:612). -/
def futurize_apply_tuple (f : α → Except Exn β) (args : α) : future_state β :=
  match f args with
  | .ok v => make_ready_future v
  | .error e => make_exception_future e

/-- futurize<T>::apply(Func&&, FuncArgs&&...) (future.hh:1339-1347): the
argument-list entry point of the plain-return specialization. -/
def futurize_apply (f : α → Except Exn β) (args : α) : future_state β :=
  match f args with
  | .ok v => make_ready_future v
  | .error e => make_exception_future e

/-- do_void_futurize_helper<void>::apply (future.hh:1353-1362): call the
void-returning callable, return make_ready_future<>() on success and
make_exception_future on a synchronous exception. -/
def do_void_futurize_helper_void_apply (f : α → Except Exn Unit) (args : α) :
    future_state Unit :=
  match f args with
  | .ok _ => make_ready_future ()
  | .error e => make_exception_future e

/-- do_void_futurize_helper<void>::apply_tuple (future.hh:1364-1372): the
argument-tuple entry point of the void-return case. -/
def do_void_futurize_helper_void_apply_tuple (f : α → Except Exn Unit) (args : α) :
    future_state Unit :=
  match f args with
  | .ok _ => make_ready_future ()
  | .error e => make_exception_future e

/-- do_void_futurize_helper<future<>>::apply (future.hh:1377-1384): call the
future<>-returning callable and return its future; a synchronous exception
thrown before the future is returned becomes make_exception_future. -/
def do_void_futurize_helper_future_apply (f : α → Except Exn (future_state Unit))
    (args : α) : future_state Unit :=
  match f args with
  | .ok fut => fut
  | .error e => make_exception_future e

/-- do_void_futurize_helper<future<>>::apply_tuple (future.hh:1386-1393). -/
def do_void_futurize_helper_future_apply_tuple
    (f : α → Except Exn (future_state Unit)) (args : α) : future_state Unit :=
  match f args with
  | .ok fut => fut
  | .error e => make_exception_future e

/-- futurize<future<Args...>>::apply(Func&&, std::tuple<FuncArgs...>&&)
(future.hh:1409-1417): call the future-returning callable through
seastar::apply; a synchronous exception becomes make_exception_future. -/
def futurize_future_apply_tuple (f : α → Except Exn (future_state β)) (args : α) :
    future_state β :=
  match f args with
  | .ok fut => fut
  | .error e => make_exception_future e

/-- futurize<future<Args...>>::apply(Func&&, FuncArgs&&...)
(future.hh:1419-1427). -/
def futurize_future_apply (f : α → Except Exn (future_state β)) (args : α) :
    future_state β :=
  match f args with
  | .ok fut => fut
  | .error e => make_exception_future e

/-
Continuations and future::then_impl (future.hh:394-403, 785-796, 977-1004).
The then machinery is a template over the callable's return type; it is
embedded here instantiated at callables returning a plain value
(futurize<T>), which is the specialization the claims exercise.  A future is
represented by its own future_state together with a flag saying whether it is
still linked to a live promise (future._promise != nullptr).
-/

/-- Result of a call to future::then_impl, before the executor runs anything.
inlineReady res fRan: the available-and-no-preemption path returned an already
available future with state res; fRan records whether the user callable ran
inside the call.  enqueuedCont captured: future::schedule found the state
available (or the future abandoned) and immediately enqueued a continuation
task holding the captured state (future.hh:787-791); the returned future is
pending until that task runs.  attachedCont: the future was pending and linked,
so the continuation was attached to the promise (future.hh:793-794) and runs
when the promise is fulfilled. -/
inductive ThenOut (α β : Type) : Type where
  | inlineReady : future_state β → Bool → ThenOut α β
  | enqueuedCont : future_state α → ThenOut α β
  | attachedCont : ThenOut α β
  deriving DecidableEq, Repr

/-- Body of the continuation created by then_impl (future.hh:995-1001), run by
continuation::run_and_dispose (future.hh:398-401) with the settled state.  On a
failed state the result promise receives the same exception and the user
callable is not invoked; otherwise futurize applies the callable to the value
and the ready result is forwarded to the promise.  Returns the state the
result promise's cell receives, and whether the callable was invoked.  The
catch-all arm is unreachable in the source: the continuation only runs with a
terminal state, and get_value asserts the state holds a result. -/
def then_cont_body (f : α → Except Exn β) : future_state α → future_state β × Bool
  | .exception e => (make_exception_future e, false)
  | .result v => (futurize_apply_tuple f v, true)
  | _ => (.invalid, false)

/-- future::then_impl (future.hh:977-1004), for a callable returning a plain
value.  st is the future's state, hasPromise is future._promise != nullptr,
needPreempt is the scheduler's need_preempt().  If the state is available and
no preemption is needed: a failed state short-circuits to
futurize::make_exception_future of the stored exception without invoking the
callable (future.hh:982-983), else the callable is applied inline through
futurize (future.hh:985).  Otherwise a fresh promise/future pair is made and a
continuation is attached via future::schedule (future.hh:785-796): if the
state is available or the promise is gone the task is enqueued right away
(after abandoned() sets broken-promise when the promise is gone and the state
not available, future.hh:788-790), else it is attached to the promise. -/
def then_impl (st : future_state α) (hasPromise : Bool) (needPreempt : Bool)
    (f : α → Except Exn β) : ThenOut α β :=
  if st.available && !needPreempt then
    match st with
    | .exception e => .inlineReady (make_exception_future e) false
    | .result v => .inlineReady (futurize_apply_tuple f v) true
    | _ => .attachedCont
  else
    if st.available || !hasPromise then
      .enqueuedCont
        (if !st.available && !hasPromise then st.set_to_broken_promise else st)
    else
      .attachedCont

/-- Whether the user callable ran during the then_impl call itself (before
then returned). -/
def ThenOut.fRan : ThenOut α β → Bool
  | .inlineReady _ b => b
  | _ => false

/-- The state eventually held by the future returned by then_impl, after the
executor has run whatever was scheduled: the inline path already produced it;
an immediately enqueued continuation later runs then_cont_body on the captured
state; an attached continuation runs then_cont_body on the state the promise
is eventually fulfilled with (the later argument).  Data flow per
continuation::run_and_dispose (future.hh:398-401) and the continuation body
(future.hh:995-1001). -/
def then_eventual (st : future_state α) (hasPromise : Bool) (needPreempt : Bool)
    (f : α → Except Exn β) (later : future_state α) : future_state β :=
  match then_impl st hasPromise needPreempt f with
  | .inlineReady res _ => res
  | .enqueuedCont captured => (then_cont_body f captured).1
  | .attachedCont => (then_cont_body f later).1

/-
The promise (future.hh:412-556, 1275-1287), at the granularity the claims
need: whether promise._state is null, the contents of the cell it addresses
when non-null, and whether a continuation task is held in promise._task.
-/

/-- Which scheduler queue a continuation task was placed on:
seastar::schedule (the executor FIFO) or seastar::schedule_urgent. -/
inductive Enq : Type where
  | normal : Enq
  | urgent : Enq
  deriving DecidableEq, Repr

/-- Model of a promise<T...>: hasState is promise._state != nullptr, cell is
the contents of *promise._state when hasState (junk otherwise), hasTask is
promise._task != nullptr. -/
structure promise (α : Type) : Type where
  hasState : Bool
  cell : future_state α
  hasTask : Bool
  deriving DecidableEq, Repr

/-- promise::make_ready<Urgent> (future.hh:1275-1287): if a task is pending,
promise._state is cleared (the cell now lives in the task) and the task is
moved onto a scheduler queue - the urgent one iff Urgent == urgent::yes and
need_preempt() is false, the normal one otherwise.  Returns the updated
promise and the queue used, if any. -/
def promise.make_ready (urgent : Bool) (needPreempt : Bool) (p : promise α) :
    promise α × Option Enq :=
  if p.hasTask then
    ({ p with hasState := false, hasTask := false },
      some (if urgent && !needPreempt then Enq.urgent else Enq.normal))
  else
    (p, none)

/-- promise::set_value (future.hh:499-505): if promise._state is non-null,
construct the value in the cell it addresses and call make_ready<urgent::no>;
otherwise do nothing. -/
def promise.set_value (v : α) (needPreempt : Bool) (p : promise α) :
    promise α × Option Enq :=
  if p.hasState then
    promise.make_ready false needPreempt { p with cell := p.cell.set v }
  else
    (p, none)

/-- promise::set_exception (future.hh:511-516): if promise._state is non-null,
store the exception in the cell and call make_ready<urgent::no>; otherwise do
nothing. -/
def promise.set_exception (e : Exn) (needPreempt : Bool) (p : promise α) :
    promise α × Option Enq :=
  if p.hasState then
    promise.make_ready false needPreempt { p with cell := p.cell.set_exception e }
  else
    (p, none)

/-- promise::set_urgent_state (future.hh:481-486): if promise._state is
non-null, move the given state into the cell and call
make_ready<urgent::yes>. -/
def promise.set_urgent_state (st : future_state α) (needPreempt : Bool)
    (p : promise α) : promise α × Option Enq :=
  if p.hasState then
    promise.make_ready true needPreempt { p with cell := st }
  else
    (p, none)

/-- Outcome of future::forward_to (future.hh:1070-1076).  fulfilled: the
future was available and its state was transferred into the promise via
set_urgent_state.  rewired: the future was not available, and the argument
promise was move-assigned over the future's linked promise
(*detach_promise() = std::move(pr)); the detailed rewiring is modelled by
forward_to_rewire on RewireWorld below. -/
inductive ForwardOut (α : Type) : Type where
  | fulfilled : promise α → Option Enq → ForwardOut α
  | rewired : ForwardOut α
  deriving DecidableEq, Repr

/-- future::forward_to (future.hh:1070-1076): if the future's state is
available, satisfy the promise with it via promise::set_urgent_state (the
urgent path); otherwise move the promise into the object position of the
future's linked promise. -/
def forward_to (st : future_state α) (needPreempt : Bool) (p : promise α) :
    ForwardOut α :=
  if st.available then
    let r := promise.set_urgent_state st needPreempt p
    .fulfilled r.1 r.2
  else
    .rewired

/-
Rewiring world for the non-available branch of future::forward_to
(future.hh:1074: *detach_promise() = std::move(pr)).  The scenario has two
promise/future pairs: F is the future forward_to is called on, and the
promise object P it is linked to lives at a fixed position (the producer
side); pr is the argument promise, whose detached future is G.  The cells
that matter are the future-resident ones, so a promise's state pointer is
modelled as null or the address of one of the two future cells.
-/

/-- Identity of a future cell: F._state or G._state. -/
inductive FutId : Type where
  | fF : FutId
  | fG : FutId
  deriving DecidableEq, Repr

/-- Identity of a promise object position: the slot holding F's linked promise
P, or the (temporary) argument promise pr. -/
inductive PSlot : Type where
  | sP : PSlot
  | sPr : PSlot
  deriving DecidableEq, Repr

/-- Two promise/future pairs, with the pointer structure of future.hh:
each promise has a state pointer (promise._state, here restricted to future
cells or null), a future back-pointer (promise._future) and a task; each
future has a promise back-pointer (future._promise). -/
structure RewireWorld (α : Type) : Type where
  Fst : future_state α
  Gst : future_state α
  P_state : Option FutId
  P_future : Option FutId
  P_task : Bool
  pr_state : Option FutId
  pr_future : Option FutId
  pr_task : Bool
  F_promise : Option PSlot
  G_promise : Option PSlot
  deriving DecidableEq, Repr

/-- future_base::detach_promise performed by F (future.hh:721-725): null the
linked promise's _state and _future, and null F._promise.  Dereferencing a
null _promise is undefined in the source, so the model leaves the world
unchanged when F has no promise. -/
def F_detach_promise (w : RewireWorld α) : RewireWorld α :=
  match w.F_promise with
  | some PSlot.sP => { w with P_state := none, P_future := none, F_promise := none }
  | some PSlot.sPr => { w with pr_state := none, pr_future := none, F_promise := none }
  | none => w

/-- Modelled from the spec: promise_base::promise_base(promise_base&&) is only
declared in future.hh (line 426); its definition lives outside this repository
snapshot.  Spec section 4.2 move rules, moving pr into the position P (the
placement move-construction inside promise move assignment, future.hh:466-470):
(1) if pr had a linked future, that future's linked_promise is set to the new
position; (2) the local-cell case does not arise here since pr_state only
ranges over future cells; (3) otherwise the cell-location pointer is copied
unchanged, as are the future link and the task, and the moved-from promise is
left disengaged. -/
def move_pr_into_P (w : RewireWorld α) : RewireWorld α :=
  let w1 :=
    match w.pr_future with
    | some FutId.fG => { w with G_promise := some PSlot.sP }
    | some FutId.fF => { w with F_promise := some PSlot.sP }
    | none => w
  { w1 with
    P_state := w1.pr_state
    P_future := w1.pr_future
    P_task := w1.pr_task
    pr_state := none
    pr_future := none
    pr_task := false }

/-- future::forward_to, non-available branch (future.hh:1074):
*detach_promise() = std::move(pr).  F detaches its linked promise P and pr is
move-assigned into P's position.  The intervening destruction of P's old
contents is a no-op on the modelled fields: detach_promise has just nulled
P._state and P._future, so the destructor's broken-promise check does not
fire. -/
def forward_to_rewire (w : RewireWorld α) : RewireWorld α :=
  move_pr_into_P (F_detach_promise w)

/-- promise::make_ready<Urgent> for the promise in position P of a
RewireWorld (future.hh:1275-1287). -/
def P_make_ready (urgent : Bool) (needPreempt : Bool) (w : RewireWorld α) :
    RewireWorld α × Option Enq :=
  if w.P_task then
    ({ w with P_state := none, P_task := false },
      some (if urgent && !needPreempt then Enq.urgent else Enq.normal))
  else
    (w, none)

/-- promise::set_value on the promise in position P of a RewireWorld
(future.hh:499-505): write through P._state if non-null, then
make_ready<urgent::no>. -/
def P_set_value (v : α) (needPreempt : Bool) (w : RewireWorld α) :
    RewireWorld α × Option Enq :=
  match w.P_state with
  | none => (w, none)
  | some FutId.fF => P_make_ready false needPreempt { w with Fst := w.Fst.set v }
  | some FutId.fG => P_make_ready false needPreempt { w with Gst := w.Gst.set v }

/-
A single promise/future pair with the cell location tracked, for the
promise-destruction claim.
-/

/-- Target of promise._state within a single pair: the promise's
_local_state or the future's _state. -/
inductive CellLoc : Type where
  | loc : CellLoc
  | fut : CellLoc
  deriving DecidableEq, Repr

/-- A promise and (possibly) its future: plocal is promise._local_state, fst
is future._state (meaningful once the future exists), sp is promise._state,
linked says both back-pointers (promise._future, future._promise) are set. -/
structure PairW (α : Type) : Type where
  plocal : future_state α
  fst : future_state α
  sp : Option CellLoc
  linked : Bool
  deriving DecidableEq, Repr

/-- promise::promise() (future.hh:458): a fresh promise owns a pending local
cell and has no future; the fst field is a placeholder until get_future. -/
def promise_new : PairW α :=
  { plocal := .future, fst := .invalid, sp := some CellLoc.loc, linked := false }

/-- promise::get_future (future.hh:479, 1267-1273) and the private future
constructor (future.hh:773): the future takes the local state by move and the
back-pointers are set, with promise._state addressing the future's cell. -/
def get_future (w : PairW α) : PairW α :=
  { w with
    fst := w.plocal
    plocal := .invalid
    sp := some CellLoc.fut
    linked := true }

/-- Contents of the cell promise._state addresses, if any. -/
def cell_read (w : PairW α) : Option (future_state α) :=
  match w.sp with
  | some CellLoc.loc => some w.plocal
  | some CellLoc.fut => some w.fst
  | none => none

/-- Write failure(broken-promise) through promise._state. -/
def cell_write_broken (w : PairW α) : PairW α :=
  match w.sp with
  | some CellLoc.loc => { w with plocal := w.plocal.set_to_broken_promise }
  | some CellLoc.fut => { w with fst := w.fst.set_to_broken_promise }
  | none => w

/-- The surviving consumer side after the promise is gone: the future's state
and its (now cleared) promise back-pointer. -/
structure FutureOnly (α : Type) : Type where
  st : future_state α
  hasPromise : Bool
  deriving DecidableEq, Repr

/-- Modelled from the spec: promise_base::check_during_destruction, invoked by
the promise destructor (future.hh:463-465), is only declared in future.hh
(line 427); its definition lives outside this repository snapshot.  Spec
section 4.3: on destruction, if the promise is in pending state with a linked
future, a broken-promise failure is synthesized on the future's cell before
tearing down, and the back-pointers are cleared. -/
def promise_destroy (w : PairW α) : FutureOnly α :=
  let w2 :=
    if w.linked then
      match cell_read w with
      | some future_state.future => cell_write_broken w
      | _ => w
    else w
  { st := w2.fst, hasPromise := false }

/-- future::abandoned (future.hh:830-833): used when attaching a continuation
or a thread to a future whose promise is gone; sets the state to
broken-promise. -/
def abandoned (f : FutureOnly α) : FutureOnly α :=
  { f with st := f.st.set_to_broken_promise }

/-- future::do_wait (future.hh:917-927).  Only the abandoned branch (no
linked promise) is modelled; the other branch suspends the calling fiber via
the external fiber switcher and is outside this embedding (the theorems below
only reach do_wait with hasPromise = false). -/
def do_wait (f : FutureOnly α) : FutureOnly α :=
  if !f.hasPromise then abandoned f else f

/-- future::get (future.hh:867-873): wait if not available, then consume the
available state.  Returns Except.error for a stored exception (get rethrows
it) and Except.ok for a value. -/
def future_get (f : FutureOnly α) : Option (Except Exn α) :=
  let f1 := if f.st.available then f else do_wait f
  f1.st.get

/-- future::wait (future.hh:897-901): like get but does not consume. -/
def future_wait (f : FutureOnly α) : FutureOnly α :=
  if f.st.available then f else do_wait f

/-- future::~future (future.hh:852-857): if the state is failed at
destruction, report_failed_future is called on the stored exception.  Returns
the number of dropped-failure reports the destructor emits. -/
def future_destroy_reports (st : future_state α) : Nat :=
  if st.failed then 1 else 0

/-
finally and rethrow_with_nested (future.hh:806-826, 1095-1144).  The claims
concern the settled outcome, so finally is modelled as a function of the
original future's settled state and the callback; the callback is a Lean
function whose Except.error is a synchronously thrown exception.
-/

/-- std::throw_with_nested(t) called while the exception cur is being handled,
per the ISO semantics the source relies on: if t's type is a non-final,
non-union class type neither std::nested_exception nor derived from it, an
object derived from both t's type and std::nested_exception (capturing cur)
is thrown; otherwise t is thrown unchanged.  In this model only nestedObj is
derived from std::nested_exception. -/
def throw_with_nested (t : Exn) (cur : Exn) : Exn :=
  match t with
  | .nestedObj i => .nestedObj i
  | e => .wrapped e cur

/-- future::rethrow_with_nested (future.hh:806-826), called inside a catch
block that is handling cur (the finally callback's exception).  If this future
is not failed, it returns make_exception_future of the current exception.
Otherwise it constructs a std::nested_exception f_ex - whose nested pointer
captures the currently handled exception, cur - then calls get(), which
throws the future's own stored exception, and inside that handler calls
std::throw_with_nested(f_ex); the resulting exception escapes the function
(Except.error). -/
def rethrow_with_nested : future_state α → Exn → Except Exn (future_state α)
  | .exception eOrig, cur => .error (throw_with_nested (.nestedObj cur) eOrig)
  | _, cur => .ok (make_exception_future cur)

/-- finally_body<Func, false>::operator() (future.hh:1130-1144) on the settled
original state: run the callback; on success forward the original future
unchanged, on a synchronous exception return result.rethrow_with_nested(),
whose escaping exception (Except.error) propagates to the caller. -/
def finally_body_plain (g : Unit → Except Exn Unit) (orig : future_state α) :
    Except Exn (future_state α) :=
  match g () with
  | .ok _ => .ok orig
  | .error x => rethrow_with_nested orig x

/-- future::finally with a plain (non-future-returning) callback, as observed
on settled inputs: finally is then_wrapped(finally_body(func))
(future.hh:1095-1099), and then_wrapped runs the body through futurize, which
converts an escaping exception into an exceptional future
(future.hh:1038-1057, 1409-1427). -/
def finally_result (orig : future_state α) (g : Unit → Except Exn Unit) :
    future_state α :=
  match finally_body_plain g orig with
  | .ok fut => fut
  | .error e => make_exception_future e

/-- finally_body<Func, true>::operator() (future.hh:1105-1127) composed to the
settled outcome: the callback's future is produced through
futurize<future<>>::apply (synchronous exceptions becoming an exceptional
future), and once it settles, a non-failed callback result forwards the
original state unchanged, while a failed one calls f_res.get() - throwing the
callback failure - and returns result.rethrow_with_nested() inside that
handler, the escaping exception being converted by then_wrapped's futurize. -/
def finally_future_result (orig : future_state α)
    (g : Unit → Except Exn (future_state Unit)) : future_state α :=
  let f_res : future_state Unit :=
    match g () with
    | .ok fu => fu
    | .error e => make_exception_future e
  match f_res with
  | .exception x =>
    match rethrow_with_nested orig x with
    | .ok fut => fut
    | .error esc => make_exception_future esc
  | _ => orig

/-
get0 (future.hh:117-130, 369-372, 886-890).  The template parameter pack
T... is modelled as a List Type and std::tuple<T...> as the corresponding
right-nested product.
-/

/-- internal::get0_return_type<T...>::type (future.hh:120-130): void (Unit)
for the empty pack, and the first element type T0 for any non-empty pack. -/
def get0_return_type : List Type → Type
  | [] => Unit
  | t :: _ => t

/-- std::tuple<T...> over a list of element types. -/
def HTuple : List Type → Type
  | [] => Unit
  | t :: ts => t × HTuple ts

/-- internal::get0_return_type<T...>::get0 (future.hh:123, 129): nothing for
the empty pack, std::get<0> of the tuple for a non-empty pack. -/
def get0 : (ts : List Type) → HTuple ts → get0_return_type ts
  | [], _ => ()
  | _ :: _, x => x.1

/-- The claim's reading of the accessor's type: the first element type when
exactly one element type exists, and void (Unit) otherwise. -/
def get0_return_type_claim : List Type → Type
  | [t] => t
  | _ => Unit

/-- future::get0 (future.hh:886-890): future_state::get0(get()), i.e. get()
followed by the first-element projection, for a future represented by its
state. -/
def future_get0 (ts : List Type) (st : future_state (HTuple ts)) :
    Option (Except Exn (get0_return_type ts)) :=
  st.get.map (fun r => r.map (get0 ts))

/-
Theorems.
-/

/-- Claim C1: for a linked promise/future pair whose value cell (living in the
future) is still pending, destroying the promise transitions the future's
cell to failure(broken-promise) before destruction completes, and any later
get or wait on the future yields the broken-promise failure.  The last
conjunct shows the source's own lazy path: get on a pending future whose
promise is gone yields broken-promise through do_wait and abandoned. -/
theorem C1_broken_promise_on_destroy (w : PairW α)
    (hl : w.linked = true) (hsp : w.sp = some CellLoc.fut)
    (hpend : w.fst = future_state.future) :
    (promise_destroy w).st = future_state.exception Exn.brokenPromise
    ∧ future_get (promise_destroy w) = some (Except.error Exn.brokenPromise)
    ∧ (future_wait (promise_destroy w)).st = future_state.exception Exn.brokenPromise
    ∧ future_get { st := future_state.future, hasPromise := false : FutureOnly α }
        = some (Except.error Exn.brokenPromise) := by
  simp [promise_destroy, cell_read, cell_write_broken, hl, hsp, hpend,
    future_get, future_wait, do_wait, abandoned, future_state.set_to_broken_promise,
    future_state.available, future_state.get]

/-- Witness for C1 at a concrete pair: a fresh promise whose future was
detached and which is destroyed while pending. -/
theorem C1_broken_promise_on_destroy_witness :
    (promise_destroy (get_future (promise_new (α := Nat)))).st
        = future_state.exception Exn.brokenPromise
    ∧ future_get (promise_destroy (get_future (promise_new (α := Nat))))
        = some (Except.error Exn.brokenPromise)
    ∧ (future_wait (promise_destroy (get_future (promise_new (α := Nat))))).st
        = future_state.exception Exn.brokenPromise
    ∧ future_get { st := future_state.future, hasPromise := false : FutureOnly Nat }
        = some (Except.error Exn.brokenPromise) :=
  C1_broken_promise_on_destroy (get_future (promise_new (α := Nat))) rfl rfl rfl

/-- Claim C2: every specialization and entry point of the lifter converts a
synchronous exception x thrown by the callable into an already-available
failed future whose cause is x, instead of propagating it to the caller. -/
theorem C2_lifter_catches_sync_exceptions
    (f1 : α → Except Exn β) (f2 : α → Except Exn Unit)
    (f3 : α → Except Exn (future_state Unit)) (f4 : α → Except Exn (future_state β))
    (a : α) (x : Exn)
    (h1 : f1 a = .error x) (h2 : f2 a = .error x)
    (h3 : f3 a = .error x) (h4 : f4 a = .error x) :
    futurize_apply_tuple f1 a = make_exception_future x
    ∧ futurize_apply f1 a = make_exception_future x
    ∧ do_void_futurize_helper_void_apply f2 a = make_exception_future x
    ∧ do_void_futurize_helper_void_apply_tuple f2 a = make_exception_future x
    ∧ do_void_futurize_helper_future_apply f3 a = make_exception_future x
    ∧ do_void_futurize_helper_future_apply_tuple f3 a = make_exception_future x
    ∧ futurize_future_apply_tuple f4 a = make_exception_future x
    ∧ futurize_future_apply f4 a = make_exception_future x
    ∧ (make_exception_future x : future_state β).available = true
    ∧ (make_exception_future x : future_state β).failed = true := by
  refine ⟨?_, ?_, ?_, ?_, ?_, ?_, ?_, ?_, rfl, rfl⟩ <;>
    simp [futurize_apply_tuple, futurize_apply, do_void_futurize_helper_void_apply,
      do_void_futurize_helper_void_apply_tuple, do_void_futurize_helper_future_apply,
      do_void_futurize_helper_future_apply_tuple, futurize_future_apply_tuple,
      futurize_future_apply, h1, h2, h3, h4]

/-- Witness for C2 at concrete callables that synchronously throw user 7. -/
theorem C2_lifter_catches_sync_exceptions_witness :
    futurize_apply_tuple (fun _ : Nat => (Except.error (Exn.user 7) : Except Exn Nat)) 0
        = make_exception_future (Exn.user 7)
    ∧ futurize_apply (fun _ : Nat => (Except.error (Exn.user 7) : Except Exn Nat)) 0
        = make_exception_future (Exn.user 7)
    ∧ do_void_futurize_helper_void_apply
          (fun _ : Nat => (Except.error (Exn.user 7) : Except Exn Unit)) 0
        = make_exception_future (Exn.user 7)
    ∧ do_void_futurize_helper_void_apply_tuple
          (fun _ : Nat => (Except.error (Exn.user 7) : Except Exn Unit)) 0
        = make_exception_future (Exn.user 7)
    ∧ do_void_futurize_helper_future_apply
          (fun _ : Nat => (Except.error (Exn.user 7) : Except Exn (future_state Unit))) 0
        = make_exception_future (Exn.user 7)
    ∧ do_void_futurize_helper_future_apply_tuple
          (fun _ : Nat => (Except.error (Exn.user 7) : Except Exn (future_state Unit))) 0
        = make_exception_future (Exn.user 7)
    ∧ futurize_future_apply_tuple
          (fun _ : Nat => (Except.error (Exn.user 7) : Except Exn (future_state Nat))) 0
        = make_exception_future (Exn.user 7)
    ∧ futurize_future_apply
          (fun _ : Nat => (Except.error (Exn.user 7) : Except Exn (future_state Nat))) 0
        = make_exception_future (Exn.user 7)
    ∧ (make_exception_future (Exn.user 7) : future_state Nat).available = true
    ∧ (make_exception_future (Exn.user 7) : future_state Nat).failed = true :=
  C2_lifter_catches_sync_exceptions _ _ _ _ 0 (Exn.user 7) rfl rfl rfl rfl

/-- Claim C3: then on a future fulfilled with a failure never invokes the
callable and yields a future fulfilled with the same failure - inline when
the failure is already available without preemption, via the immediately
enqueued continuation when preemption is needed, and via the attached
continuation when the failure arrives only later. -/
theorem C3_then_propagates_failure (e : Exn) (f : α → Except Exn β) (hp np : Bool) :
    then_impl (future_state.exception e) hp false f
        = ThenOut.inlineReady (make_exception_future e) false
    ∧ then_cont_body f (future_state.exception e) = (make_exception_future e, false)
    ∧ then_eventual (future_state.exception e) hp np f (future_state.exception e)
        = make_exception_future e
    ∧ then_eventual future_state.future true np f (future_state.exception e)
        = make_exception_future e
    ∧ (then_impl (future_state.exception e) hp np f).fRan = false := by
  cases np <;>
    simp [then_impl, then_eventual, then_cont_body, ThenOut.fRan,
      future_state.available, future_state.failed, make_exception_future]

/-- Claim C4 counterexample: a future that is available - holding a failure -
with need_preempt false, on which then does not invoke the callable before
returning (the failure short-circuit runs instead). -/
theorem C4_counterexample :
    future_state.available (future_state.exception (Exn.user 0) : future_state Nat) = true
    ∧ (then_impl (future_state.exception (Exn.user 0)) false false
        (fun n : Nat => Except.ok n)).fRan = false := by
  decide

/-- Claim C4 as amended: for every available future holding a value and every
callable, if need_preempt is false at the time of the call, then invokes the
callable inline before returning (through the lifter, without going through
the scheduler). -/
theorem C4_inline_when_value_available (v : α) (hp : Bool) (f : α → Except Exn β) :
    then_impl (future_state.result v) hp false f
      = ThenOut.inlineReady (futurize_apply_tuple f v) true := by
  simp [then_impl, future_state.available, future_state.failed]

/-- Claim C5, behaviour of the code at the failing input: when the original
future holds failure user 0 and the finally callback throws user 1, both
finally bodies produce a bare std::nested_exception whose nested pointer is
the callback's exception - the original failure user 0 is dropped, not
carried as a nested cause.  The other conjuncts show the value-preserving
and value-with-callback-failure cases, which do behave as documented. -/
theorem C5_finally_evaluation :
    finally_result (future_state.exception (Exn.user 0) : future_state Nat)
        (fun _ => Except.error (Exn.user 1))
      = future_state.exception (Exn.nestedObj (Exn.user 1))
    ∧ finally_future_result (future_state.exception (Exn.user 0) : future_state Nat)
        (fun _ => Except.error (Exn.user 1))
      = future_state.exception (Exn.nestedObj (Exn.user 1))
    ∧ finally_result (future_state.result 7 : future_state Nat) (fun _ => Except.ok ())
      = future_state.result 7
    ∧ finally_result (future_state.result 7 : future_state Nat)
        (fun _ => Except.error (Exn.user 1))
      = future_state.exception (Exn.user 1) :=
  ⟨rfl, rfl, rfl, rfl⟩

/-- Claim C6: a future destroyed while holding a failure that was never
observed reports exactly one dropped-failure diagnostic; after ignore, or
after the state was consumed by get, get_exception or a handler (which move
the state out, leaving invalid), or when the state holds a value or is
pending, no report is emitted. -/
theorem C6_dropped_failure_reporting (e : Exn) (v : α) :
    future_destroy_reports (future_state.exception e : future_state α) = 1
    ∧ future_destroy_reports ((future_state.exception e : future_state α).ignore) = 0
    ∧ future_destroy_reports ((future_state.exception e : future_state α).moveOut).2 = 0
    ∧ future_destroy_reports (future_state.result v) = 0
    ∧ future_destroy_reports (future_state.future : future_state α) = 0
    ∧ future_destroy_reports (future_state.invalid : future_state α) = 0 :=
  ⟨rfl, rfl, rfl, rfl, rfl, rfl⟩

/-- Claim C7: forward_to on an available future satisfies the promise with the
future's fulfilled state via the urgent path, and that path enqueues the
promise's pending continuation task urgently iff need_preempt is false
(normally otherwise, and nothing is enqueued without a task); on a
non-available future, forward_to instead takes the rewiring branch, which
moves the argument promise into the position previously held by the future's
linked promise - it inherits the argument's cell-location pointer and task,
the argument's detached future relinks to that position, and fulfilling
through that position reaches the argument promise's original cell. -/
theorem C7_forward_to_urgent_and_rewire
    (st st2 : future_state α) (np : Bool) (p : promise α) (w : RewireWorld α) (v : α)
    (hav : st.available = true) (hs : p.hasState = true)
    (hnav : st2.available = false)
    (hF : w.F_promise = some PSlot.sP)
    (hprf : w.pr_future = some FutId.fG)
    (hprs : w.pr_state = some FutId.fG) :
    forward_to st np p
      = ForwardOut.fulfilled
          { hasState := !p.hasTask, cell := st, hasTask := false }
          (if p.hasTask then some (if !np then Enq.urgent else Enq.normal) else none)
    ∧ forward_to st2 np p = ForwardOut.rewired
    ∧ (forward_to_rewire w).P_state = w.pr_state
    ∧ (forward_to_rewire w).P_task = w.pr_task
    ∧ (forward_to_rewire w).G_promise = some PSlot.sP
    ∧ (forward_to_rewire w).F_promise = none
    ∧ ((P_set_value v np (forward_to_rewire w)).1).Gst = (w.Gst).set v := by
  obtain ⟨phs, pc, pht⟩ := p
  simp only at hs
  subst hs
  refine ⟨?_, ?_, ?_, ?_, ?_, ?_, ?_⟩ <;>
    cases pht <;>
      cases hpt : w.pr_task <;>
        simp [forward_to, promise.set_urgent_state, promise.make_ready, hav, hnav,
          forward_to_rewire, F_detach_promise, move_pr_into_P, P_set_value,
          P_make_ready, hF, hprf, hprs, hpt, future_state.set]

/-- Witness for C7 at concrete data: a ready future forwarded to a live
promise carrying a task with need_preempt false, a pending future, and a
rewire world in the standard configuration. -/
theorem C7_forward_to_urgent_and_rewire_witness :
    forward_to (future_state.result 3) false
        { hasState := true, cell := future_state.future, hasTask := true : promise Nat }
      = ForwardOut.fulfilled
          { hasState := false, cell := future_state.result 3, hasTask := false }
          (some Enq.urgent)
    ∧ forward_to future_state.future false
        { hasState := true, cell := future_state.future, hasTask := true : promise Nat }
      = ForwardOut.rewired
    ∧ (forward_to_rewire
        { Fst := future_state.future, Gst := future_state.future,
          P_state := some FutId.fF, P_future := some FutId.fF, P_task := false,
          pr_state := some FutId.fG, pr_future := some FutId.fG, pr_task := false,
          F_promise := some PSlot.sP, G_promise := some PSlot.sPr
          : RewireWorld Nat }).Gst = future_state.future
    ∧ ((P_set_value 5 false (forward_to_rewire
        { Fst := future_state.future, Gst := future_state.future,
          P_state := some FutId.fF, P_future := some FutId.fF, P_task := false,
          pr_state := some FutId.fG, pr_future := some FutId.fG, pr_task := false,
          F_promise := some PSlot.sP, G_promise := some PSlot.sPr
          : RewireWorld Nat })).1).Gst = future_state.result 5 := by
  have h := C7_forward_to_urgent_and_rewire (future_state.result 3) future_state.future
    false
    { hasState := true, cell := future_state.future, hasTask := true : promise Nat }
    { Fst := future_state.future, Gst := future_state.future,
      P_state := some FutId.fF, P_future := some FutId.fF, P_task := false,
      pr_state := some FutId.fG, pr_future := some FutId.fG, pr_task := false,
      F_promise := some PSlot.sP, G_promise := some PSlot.sPr
      : RewireWorld Nat }
    5 rfl rfl rfl rfl rfl rfl
  exact ⟨h.1, h.2.1, rfl, h.2.2.2.2.2.2⟩

/-- Claim C8: a ready-value future of v chained with a pure synchronous
callable g through then and observed with get yields exactly g v, whether
the call inlines (need_preempt false) or goes through the scheduled
continuation (need_preempt true). -/
theorem C8_ready_value_then_get (v : α) (g : α → β) (np : Bool)
    (later : future_state α) :
    (then_eventual (make_ready_future v) false np (fun a => Except.ok (g a)) later).get
      = some (Except.ok (g v)) := by
  cases np <;>
    simp [then_eventual, then_impl, then_cont_body, futurize_apply_tuple,
      make_ready_future, future_state.available, future_state.failed,
      future_state.get]

/-- Claim C9 counterexample: for the two-element pack, the source's accessor
type is the first element type (Nat here), not the empty type the claim
prescribes for every pack of size other than one. -/
theorem C9_counterexample :
    get0_return_type [Nat, Bool] = Nat
    ∧ get0_return_type_claim [Nat, Bool] = Unit
    ∧ get0_return_type [Nat, Bool] ≠ get0_return_type_claim [Nat, Bool] := by
  refine ⟨rfl, rfl, fun h => ?_⟩
  have h2 : Nat = Unit := h
  have h3 : Subsingleton Nat := by rw [h2]; infer_instance
  exact absurd (@Subsingleton.elim Nat h3 0 1) (by decide)

/-- Claim C9 as amended: the single-element accessor returns the first element
of the result tuple whenever at least one element type exists - even for
multi-element packs - and the empty type (void) only for the empty pack. -/
theorem C9_get0_amended :
    get0_return_type [] = Unit
    ∧ (∀ (t : Type) (ts : List Type), get0_return_type (t :: ts) = t)
    ∧ (∀ x : HTuple [], get0 [] x = ())
    ∧ (∀ (a : Nat) (b : Bool), get0 [Nat, Bool] (a, b, ()) = a)
    ∧ (∀ a : Nat, get0 [Nat] (a, ()) = a)
    ∧ (∀ a : Nat, future_get0 [Nat] (future_state.result (a, ()))
        = some (Except.ok a)) :=
  ⟨rfl, fun _ _ => rfl, fun _ => rfl, fun _ _ => rfl, fun _ => rfl, fun _ => rfl⟩

/-- Claim C10: on a promise whose authoritative-state pointer is null,
set_value and set_exception are silent no-ops - the promise is unchanged, no
cell is written and no task is enqueued. -/
theorem C10_null_state_setters_noop (p : promise α) (v : α) (e : Exn) (np : Bool)
    (h : p.hasState = false) :
    promise.set_value v np p = (p, none)
    ∧ promise.set_exception e np p = (p, none) := by
  simp [promise.set_value, promise.set_exception, h]

/-- Witness for C10 at a concrete promise with a null state pointer. -/
theorem C10_null_state_setters_noop_witness :
    promise.set_value 4 false
        { hasState := false, cell := future_state.invalid, hasTask := false : promise Nat }
      = ({ hasState := false, cell := future_state.invalid, hasTask := false }, none)
    ∧ promise.set_exception (Exn.user 2) false
        { hasState := false, cell := future_state.invalid, hasTask := false : promise Nat }
      = ({ hasState := false, cell := future_state.invalid, hasTask := false }, none) :=
  C10_null_state_setters_noop
    { hasState := false, cell := future_state.invalid, hasTask := false } 4
    (Exn.user 2) false rfl
